import Mathlib

/-!
# OTP service: shallow embedding and verification

A shallow embedding of the OTP request/verify service (`src/index.js`):
phone normalization, the in-memory request store, the `/otp/request` and
`/otp/verify` handlers, identity provisioning (`ensureSupabaseUser`) and
the recent-requests listing (`loadRecentOtpRequests`), together with
theorems settling the specification's claims about them.

External collaborators (the Vonage gateway, SMS.RU transport, QR renderer
and the Supabase identity/storage backend) are modelled as explicit
environment records carrying the outcome of each outbound call, so that the
handlers' control flow over those outcomes is embedded exactly as written.
-/

namespace OtpValhalla

/-! ## Definitions

### Phone normalizer (`normalizePhoneToE164`, src/index.js:1268-1289)

JavaScript `String.prototype.trim` and the digit filter `replace(/\D/g, '')`
are modelled on `List Char`.  `wsChar` covers the whitespace characters that
occur in phone input. -/

def wsChar (c : Char) : Bool :=
  c == ' ' || c == '\t' || c == '\n' || c == '\r'

/-- Remove trailing characters satisfying `p` (the tail half of `trim`). -/
def dropTrail (p : Char → Bool) (l : List Char) : List Char :=
  (l.reverse.dropWhile p).reverse

/-- Model of JavaScript `trim()`: strip leading and trailing whitespace. -/
def jsTrim (l : List Char) : List Char :=
  dropTrail wsChar (l.dropWhile wsChar)

/-- Model of `replace(/\D/g, '')`: keep only decimal digits. -/
def digitsOf (l : List Char) : List Char :=
  l.filter Char.isDigit

/-- `normalizePhoneToE164` on character lists (src/index.js:1268-1289):
pass `+`-prefixed input through after trimming; rewrite 11-digit `8…` to
`+7…`; prefix 10-digit `9…` with `+7`; prefix 11-digit `7…` with `+`;
otherwise prefix the digits with `+`; empty input or no digits yield `''`. -/
def normE164Chars (raw : List Char) : List Char :=
  if raw = [] then []
  else
    let trimmed := jsTrim raw
    if trimmed.head? = some '+' then trimmed
    else
      let digits := digitsOf trimmed
      if digits = [] then []
      else if digits.length = 11 ∧ digits.head? = some '8' then
        '+' :: '7' :: digits.tail
      else if digits.length = 10 ∧ digits.head? = some '9' then
        '+' :: '7' :: digits
      else if digits.length = 11 ∧ digits.head? = some '7' then
        '+' :: digits
      else '+' :: digits

/-- `normalizePhoneToE164` on strings. -/
def normalizePhoneToE164 (raw : String) : String :=
  String.mk (normE164Chars raw.data)

/-! ### OTP session store (`requestStore`, src/index.js:1042 & handlers)

The JavaScript `Map` is modelled as an association list with the three
operations the handlers use: `get`, `delete` and `set` (overwrite). -/

/-- One entry of `requestStore`: the object stored by `POST /otp/request`
(src/index.js:2459-2466 for self-managed providers, 2411-2417 for Vonage,
where no `code` field is stored).  Timestamps are milliseconds as `Int`. -/
structure OtpSession where
  phone : String
  code : Option String
  expiresAt : Int
  provider : String
  qrPayload : Option String
  qrDataUrl : Option String
deriving DecidableEq

abbrev RequestStore := List (String × OtpSession)

def storeGet : RequestStore → String → Option OtpSession
  | [], _ => none
  | (k', v) :: rest, k => if k' = k then some v else storeGet rest k

def storeDelete : RequestStore → String → RequestStore
  | [], _ => []
  | (k', v) :: rest, k =>
    if k' = k then storeDelete rest k else (k', v) :: storeDelete rest k

def storeSet (s : RequestStore) (k : String) (v : OtpSession) : RequestStore :=
  (k, v) :: storeDelete s k

/-! ### Identity provisioning (`ensureSupabaseUser`, src/index.js:1498-1532)

The Supabase admin API is an external collaborator; an `IdentityEnv` carries
the outcome of each of its calls: the search before creation
(`findSupabaseUserByPhone`), the creation attempt (`auth.admin.createUser`,
which either yields an optional user record or throws an error object), and
the re-search performed after a lost provisioning race. -/

structure SbUser where
  id : String
deriving DecidableEq

/-- The error object thrown by `createUser`: an optional `code` and a
`message` (modelled as `''` when absent). -/
structure CreateUserError where
  code : Option String
  message : String
deriving DecidableEq

/-- The value `ensureSupabaseUser` resolves with: `{ userId, created }`. -/
structure ProvisionInfo where
  userId : Option String
  created : Bool
deriving DecidableEq

structure IdentityEnv where
  configured : Bool
  searchBefore : Option SbUser
  createResult : Except CreateUserError (Option SbUser)
  searchAfter : Option SbUser

/-- Does the haystack start with the needle? (helper for `includes`). -/
def startsWithList : List Char → List Char → Bool
  | _, [] => true
  | [], _ :: _ => false
  | a :: as, b :: bs => a == b && startsWithList as bs

/-- Model of JavaScript `String.prototype.includes`. -/
def containsSub : List Char → List Char → Bool
  | [], needle => needle.isEmpty
  | a :: as, needle => startsWithList (a :: as) needle || containsSub as needle

def strIncludes (s sub : String) : Bool :=
  containsSub s.data sub.data

/-- src/index.js:1520-1524: the creation failure is a lost provisioning race
iff `error.code === 'phone_exists'` or the message includes
`'Phone number already registered'`. -/
def isPhoneExistsError (e : CreateUserError) : Bool :=
  e.code == some "phone_exists" ||
    strIncludes e.message "Phone number already registered"

/-- `ensureSupabaseUser(phone)` (src/index.js:1498-1532): `null` when
Supabase is unconfigured; an existing user short-circuits with
`created=false`; otherwise create (`phone_confirm: true`); if creation fails
because the phone now exists, re-search and return the existing record with
`created=false`; any other failure (or a failed re-search) propagates. -/
def ensureSupabaseUser (env : IdentityEnv) :
    Except CreateUserError (Option ProvisionInfo) :=
  if env.configured = false then Except.ok none
  else
    match env.searchBefore with
    | some u => Except.ok (some ⟨some u.id, false⟩)
    | none =>
      match env.createResult with
      | Except.ok user => Except.ok (some ⟨user.map SbUser.id, true⟩)
      | Except.error e =>
        if isPhoneExistsError e then
          match env.searchAfter with
          | some u => Except.ok (some ⟨some u.id, false⟩)
          | none => Except.error e
        else Except.error e

/-- The `(supabaseUserId, supabaseUserCreated)` pair the verify handler puts
in its response (src/index.js:2576-2588): provisioning errors are caught and
degrade to `(null, false)`, as does an unconfigured backend. -/
def provisionOutcome (env : IdentityEnv) : Option String × Bool :=
  match ensureSupabaseUser env with
  | Except.ok (some info) => (info.userId, info.created)
  | _ => (none, false)

/-! ### Verification engine (`POST /otp/verify`, src/index.js:2515-2594) -/

/-- Outcome of `vonage.verify.check`: `status` and optional `error_text`. -/
structure VonageCheck where
  status : String
  errorText : Option String
deriving DecidableEq

/-- Environment of one verify call: the current time, whether the Vonage
gateway is configured, the outcome of `vonage.verify.check` (`Except.error`
models a thrown exception, reaching the handler's catch-all) and the
identity-provisioning environment. -/
structure VerifyEnv where
  now : Int
  vonageConfigured : Bool
  vonageCheck : Except Unit VonageCheck
  idEnv : IdentityEnv

/-- The HTTP responses of `POST /otp/verify`: 400 for missing fields,
unknown session, expiry, gateway rejection and invalid code; 200 with
`success: true` and the provisioning outcome; 500 for a thrown exception. -/
inductive VerifyResult where
  | missingFields
  | notFound
  | expired
  | vonageError (message : String)
  | invalidCode
  | success (phone : String) (mock : Bool) (supabaseUserId : Option String)
      (supabaseUserCreated : Bool)
  | serverError
deriving DecidableEq

/-- `POST /otp/verify` (src/index.js:2515-2594).  Returns the response and
the request store after the call.  Durable-audit writes
(`updateOtpRequestRecord`) swallow their own failures and do not affect the
live store, so they are not part of the state. -/
def otpVerify (env : VerifyEnv) (store : RequestStore) (requestId code : String) :
    VerifyResult × RequestStore :=
  if requestId = "" ∨ code = "" then (VerifyResult.missingFields, store)
  else
    match storeGet store requestId with
    | none => (VerifyResult.notFound, store)
    | some meta =>
      if meta.expiresAt < env.now then
        (VerifyResult.expired, storeDelete store requestId)
      else if meta.provider = "vonage" ∧ env.vonageConfigured = true then
        match env.vonageCheck with
        | Except.error _ => (VerifyResult.serverError, store)
        | Except.ok check =>
          if check.status ≠ "0" then
            (VerifyResult.vonageError
              (check.errorText.getD "Invalid verification code"), store)
          else
            (VerifyResult.success meta.phone false
              (provisionOutcome env.idEnv).1 (provisionOutcome env.idEnv).2,
             storeDelete store requestId)
      else
        match meta.code with
        | none => (VerifyResult.invalidCode, store)
        | some c =>
          if c = "" ∨ c ≠ code then (VerifyResult.invalidCode, store)
          else
            (VerifyResult.success meta.phone (meta.provider == "mock")
              (provisionOutcome env.idEnv).1 (provisionOutcome env.idEnv).2,
             storeDelete store requestId)

def isSuccess : VerifyResult → Bool
  | VerifyResult.success _ _ _ _ => true
  | _ => false

/-- Number of successful responses across a sequence of verify calls against
one session id, threading the store from call to call. -/
def verifySeq (id : String) : List (VerifyEnv × String) → RequestStore → Nat
  | [], _ => 0
  | (e, c) :: rest, s =>
    (if isSuccess (otpVerify e s id c).1 then 1 else 0) +
      verifySeq id rest (otpVerify e s id c).2

/-! ### Issuance (`POST /otp/request`, src/index.js:2372-2513) -/

/-- `brandName` (src/index.js:983): the `OTP_BRAND_NAME` default. -/
def brandName : String := "Поддержка++"

/-- `buildQrPayload` (src/index.js:1132-1153): the JSON document embedding
the session coordinates.  The optional profile/care snapshot derived from
the caller's report and the `generatedAt` timestamp do not influence any
claim and are not rendered here. -/
def buildQrPayload (requestId phone provider brand : String) : String :=
  "\x7b\"requestId\":\"" ++ requestId ++ "\",\"phone\":\"" ++ phone ++
    "\",\"provider\":\"" ++ provider ++ "\",\"brand\":\"" ++ brand ++ "\"\x7d"

/-- `generateQrDataUrl` (src/index.js:1155-1168): falsy payload or a
renderer exception yield `null`; otherwise the rendered data URL. -/
def generateQrDataUrl (payload : String) (render : Except Unit String) :
    Option String :=
  if payload = "" then none
  else
    match render with
    | Except.ok url => some url
    | Except.error _ => none

/-- Outcome of `vonage.verify.start`: status, optional `error_text` and the
gateway-issued `request_id`. -/
structure VonageStart where
  status : String
  errorText : Option String
  requestId : String
deriving DecidableEq

/-- Environment of one issuance: current time, configured TTL, the active
provider chosen at process start, and the outcomes of the outbound calls
(`vonage.verify.start`, `randomUUID`, the random 6-digit code, the QR
renderer and `sendSmsRuCode`; `Except.error` models a thrown exception). -/
structure RequestEnv where
  now : Int
  ttlMs : Int
  activeProvider : String
  vonageConfigured : Bool
  vonageStart : Except String VonageStart
  newRequestId : String
  newCode : String
  qrRender : Except Unit String
  smsSend : Except String Unit

/-- The HTTP responses of `POST /otp/request`: 400 for a missing or invalid
phone, a caught exception (`error.message`), or a Vonage rejection; 200 with
the session coordinates (the Vonage response carries no mock fields). -/
inductive RequestResult where
  | missingPhone
  | invalidPhone
  | requestError (message : String)
  | vonageRejected (message : String)
  | okVonage (requestId : String) (expiresIn : Int) (reportCaptured : Bool)
      (qrPayload : String) (qrDataUrl : Option String)
  | okLocal (requestId : String) (expiresIn : Int) (mock : Bool)
      (mockCode : Option String) (reportCaptured : Bool) (qrPayload : String)
      (qrDataUrl : Option String)
deriving DecidableEq

/-- `POST /otp/request` (src/index.js:2372-2513).  The session is inserted
into the live store before the SMS.RU send is attempted, and the catch-all
at src/index.js:2502-2512 does not remove it on a send failure.
`createOtpRequestRecord` swallows its own failures and does not touch the
live store. -/
def otpRequest (env : RequestEnv) (store : RequestStore) (phone : String)
    (report : Option String) : RequestResult × RequestStore :=
  if phone = "" then (RequestResult.missingPhone, store)
  else if normalizePhoneToE164 phone = "" then (RequestResult.invalidPhone, store)
  else
    let normalized := normalizePhoneToE164 phone
    let expiresAt := env.now + env.ttlMs
    if env.activeProvider = "vonage" ∧ env.vonageConfigured = true then
      match env.vonageStart with
      | Except.error msg => (RequestResult.requestError msg, store)
      | Except.ok resp =>
        if resp.status ≠ "0" then
          (RequestResult.vonageRejected
            (resp.errorText.getD "Failed to request verification code"), store)
        else
          let qrPayload := buildQrPayload resp.requestId normalized "vonage" brandName
          let qrDataUrl := generateQrDataUrl qrPayload env.qrRender
          (RequestResult.okVonage resp.requestId (env.ttlMs / 1000) report.isSome
            qrPayload qrDataUrl,
           storeSet store resp.requestId
             ⟨normalized, none, expiresAt, "vonage", some qrPayload, qrDataUrl⟩)
    else
      let requestId := env.newRequestId
      let code := env.newCode
      let qrPayload := buildQrPayload requestId normalized env.activeProvider brandName
      let qrDataUrl := generateQrDataUrl qrPayload env.qrRender
      let store1 := storeSet store requestId
        ⟨normalized, some code, expiresAt, env.activeProvider, some qrPayload, qrDataUrl⟩
      if env.activeProvider = "smsru" then
        match env.smsSend with
        | Except.error msg => (RequestResult.requestError msg, store1)
        | Except.ok _ =>
          (RequestResult.okLocal requestId (env.ttlMs / 1000) false none
            report.isSome qrPayload qrDataUrl, store1)
      else
        (RequestResult.okLocal requestId (env.ttlMs / 1000)
          (env.activeProvider == "mock")
          (if env.activeProvider = "mock" then some code else none)
          report.isSome qrPayload qrDataUrl, store1)

/-- The session object a self-managed issuance stores under
`env.newRequestId` (src/index.js:2459-2466). -/
def localSession (env : RequestEnv) (phone : String) : OtpSession :=
  ⟨normalizePhoneToE164 phone, some env.newCode, env.now + env.ttlMs,
   env.activeProvider,
   some (buildQrPayload env.newRequestId (normalizePhoneToE164 phone)
     env.activeProvider brandName),
   generateQrDataUrl (buildQrPayload env.newRequestId
     (normalizePhoneToE164 phone) env.activeProvider brandName) env.qrRender⟩

/-! ### Recent-requests listing (`loadRecentOtpRequests`,
src/index.js:1246-1266, and `GET /otp/requests`, src/index.js:2283-2308)

The durable `otp_requests` table is modelled as a list of rows; the
Supabase query `order('created_at', { ascending: false }).limit(n)` is a
stable sort by descending `created_at` followed by `take`. -/

/-- One row of the durable audit table, with the columns selected by
`loadRecentOtpRequests`. -/
structure AuditRow where
  request_id : String
  phone : String
  provider : String
  status : String
  qr_payload : Option String
  qr_data_url : Option String
  created_at : Int
  expires_at : Option Int
  verified_at : Option Int
  metadata : String
deriving DecidableEq

/-- Newest first: descending `created_at`. -/
def newestFirst (a b : AuditRow) : Prop :=
  b.created_at ≤ a.created_at

instance : DecidableRel newestFirst :=
  fun a b => Int.decLe b.created_at a.created_at

instance : IsTotal AuditRow newestFirst :=
  ⟨fun a b => le_total b.created_at a.created_at⟩

instance : IsTrans AuditRow newestFirst :=
  ⟨fun _ _ _ hab hbc => le_trans hbc hab⟩

/-- `Math.max(1, Math.min(Number(limit) || 50, 200))`
(src/index.js:1251).  `none` models `NaN` (absent or non-numeric query
parameter); `Number(x) || 50` also replaces the falsy value `0`. -/
def sanitizeLimit (limitNum : Option Int) : Int :=
  max 1 (min (match limitNum with
    | some v => if v = 0 then 50 else v
    | none => 50) 200)

/-- `loadRecentOtpRequests` (src/index.js:1246-1266): throws when Supabase
is not configured; otherwise the newest `sanitizedLimit` rows. -/
def loadRecentOtpRequests (configured : Bool) (table : List AuditRow)
    (limit : Option Int) : Except String (List AuditRow) :=
  if configured = false then Except.error "Supabase is not configured"
  else
    Except.ok ((List.insertionSort newestFirst table).take
      (sanitizeLimit limit).toNat)

/-- The two responses of `GET /otp/requests`: the item list, or a 500. -/
inductive ListResult where
  | items (rows : List AuditRow)
  | serverError (message : String)
deriving DecidableEq

/-- `GET /otp/requests` (src/index.js:2283-2308): any failure of the load
becomes a 500 `'Failed to load OTP requests'`. -/
def getOtpRequests (configured : Bool) (table : List AuditRow)
    (limitParam : Option Int) : ListResult :=
  match loadRecentOtpRequests configured table limitParam with
  | Except.ok rows => ListResult.items rows
  | Except.error _ => ListResult.serverError "Failed to load OTP requests"

/-! ### Concrete sample data for witnesses -/

/-- A live mock session: secret `123456`, expiring at t = 1000 ms. -/
def sampleSession : OtpSession :=
  ⟨"+79991234567", some "123456", 1000, "mock", none, none⟩

/-- An identity environment with Supabase unconfigured. -/
def sampleIdEnv : IdentityEnv :=
  ⟨false, none, Except.ok none, none⟩

/-- A verify call at t = 500, before `sampleSession` expires. -/
def sampleVerifyEnv : VerifyEnv :=
  ⟨500, false, Except.ok ⟨"0", none⟩, sampleIdEnv⟩

/-- A verify call at exactly t = 1000, the `expiresAt` instant. -/
def boundaryVerifyEnv : VerifyEnv :=
  ⟨1000, false, Except.ok ⟨"0", none⟩, sampleIdEnv⟩

/-- A verify call at t = 2000, strictly after `sampleSession` expires. -/
def lateVerifyEnv : VerifyEnv :=
  ⟨2000, false, Except.ok ⟨"0", none⟩, sampleIdEnv⟩

/-- A provisioning environment whose search backend always throws. -/
def failingIdEnv : IdentityEnv :=
  ⟨true, none, Except.error ⟨none, "network down"⟩, none⟩

/-- A verify call whose provisioning fails. -/
def provisionFailEnv : VerifyEnv :=
  ⟨500, false, Except.ok ⟨"0", none⟩, failingIdEnv⟩

/-- A creation failure with the `phone_exists` code (lost race). -/
def raceError : CreateUserError :=
  ⟨some "phone_exists", "Phone number already registered"⟩

def raceUser : SbUser := ⟨"user-1"⟩

/-- A provisioning run that loses the creation race and re-finds the user. -/
def raceEnv : IdentityEnv :=
  ⟨true, none, Except.error raceError, some raceUser⟩

/-- A mock-provider issuance at t = 0 with a 300 000 ms TTL whose QR
renderer throws. -/
def mockRequestEnv : RequestEnv :=
  ⟨0, 300000, "mock", false, Except.error "unused", "req-1", "654321",
    Except.error (), Except.ok ()⟩

/-- An SMS.RU issuance whose outbound send throws. -/
def smsruFailEnv : RequestEnv :=
  ⟨0, 300000, "smsru", false, Except.error "unused", "req-2", "222333",
    Except.ok "data:image/png;base64,AAAA", Except.error "SMS.RU запрос завершился с ошибкой"⟩

/-- A two-row audit table whose older row comes first. -/
def sampleTable : List AuditRow :=
  [⟨"r1", "+79991234567", "mock", "verified", none, none, 100, some 400100, some 200, ""⟩,
   ⟨"r2", "+79995554433", "smsru", "pending", none, none, 900, some 400900, none, ""⟩]

/-- What the configured listing returns on `sampleTable` with no limit. -/
def sampleRows : List AuditRow :=
  (List.insertionSort newestFirst sampleTable).take 50

end OtpValhalla

namespace OtpValhalla

/-! ## Theorems

### Trim and normalizer lemmas -/

theorem dropWhile_head_false (p : Char → Bool) :
    ∀ (l : List Char) (c : Char), (l.dropWhile p).head? = some c → p c = false := by
  intro l
  induction l with
  | nil => intro c h; simp [List.dropWhile] at h
  | cons a t ih =>
      intro c h
      by_cases hpa : p a
      · rw [List.dropWhile_cons_of_pos hpa] at h
        exact ih c h
      · rw [List.dropWhile_cons_of_neg hpa] at h
        simp at h
        rw [← h]
        exact Bool.eq_false_iff.mpr hpa

theorem dropWhile_eq_self_of_head (p : Char → Bool) (l : List Char)
    (h : ∀ c, l.head? = some c → p c = false) : l.dropWhile p = l := by
  cases l with
  | nil => rfl
  | cons a t =>
      have ha : p a = false := h a rfl
      rw [List.dropWhile_cons_of_neg (by simp [ha])]

theorem dropWhile_eq_self_of_all (p : Char → Bool) (l : List Char)
    (h : ∀ c ∈ l, p c = false) : l.dropWhile p = l := by
  cases l with
  | nil => rfl
  | cons a t =>
      have ha : p a = false := h a (List.mem_cons_self a t)
      rw [List.dropWhile_cons_of_neg (by simp [ha])]

theorem dropWhile_suffix_decomp (p : Char → Bool) :
    ∀ l : List Char, ∃ t, l = t ++ l.dropWhile p := by
  intro l
  induction l with
  | nil => exact ⟨[], rfl⟩
  | cons a t ih =>
      by_cases hpa : p a
      · obtain ⟨u, hu⟩ := ih
        refine ⟨a :: u, ?_⟩
        rw [List.dropWhile_cons_of_pos hpa]
        simpa using hu
      · refine ⟨[], ?_⟩
        rw [List.dropWhile_cons_of_neg hpa]
        rfl

theorem dropWhile_idem (p : Char → Bool) (l : List Char) :
    (l.dropWhile p).dropWhile p = l.dropWhile p :=
  dropWhile_eq_self_of_head p _ (fun c hc => dropWhile_head_false p l c hc)

theorem dropTrail_idem (p : Char → Bool) (l : List Char) :
    dropTrail p (dropTrail p l) = dropTrail p l := by
  unfold dropTrail
  rw [List.reverse_reverse, dropWhile_idem]

/-- A nonempty `dropTrail` result is a prefix of the input, so it keeps the
head element. -/
theorem dropTrail_head (p : Char → Bool) (l : List Char)
    (h : dropTrail p l ≠ []) : (dropTrail p l).head? = l.head? := by
  obtain ⟨t, ht⟩ := dropWhile_suffix_decomp p l.reverse
  have hl : l = dropTrail p l ++ t.reverse := by
    unfold dropTrail
    conv_lhs => rw [← List.reverse_reverse l, ht]
    rw [List.reverse_append]
  cases hv : dropTrail p l with
  | nil => exact absurd hv h
  | cons x xs =>
      conv_rhs => rw [hl]
      rw [hv]
      simp

theorem jsTrim_idem (l : List Char) : jsTrim (jsTrim l) = jsTrim l := by
  unfold jsTrim
  by_cases hemp : dropTrail wsChar (l.dropWhile wsChar) = []
  · rw [hemp]
    rfl
  · have hhead : ∀ c, (dropTrail wsChar (l.dropWhile wsChar)).head? = some c →
        wsChar c = false := by
      intro c hc
      rw [dropTrail_head wsChar _ hemp] at hc
      exact dropWhile_head_false wsChar l c hc
    rw [dropWhile_eq_self_of_head wsChar _ hhead, dropTrail_idem]

theorem jsTrim_eq_self_of_all (l : List Char)
    (h : ∀ c ∈ l, wsChar c = false) : jsTrim l = l := by
  unfold jsTrim
  rw [dropWhile_eq_self_of_all wsChar l h]
  unfold dropTrail
  rw [dropWhile_eq_self_of_all wsChar l.reverse
    (by intro c hc; exact h c (List.mem_reverse.mp hc)), List.reverse_reverse]

theorem not_ws_of_isDigit (c : Char) (h : c.isDigit = true) : wsChar c = false := by
  have h1 : c ≠ ' ' := by intro e; rw [e] at h; exact absurd h (by decide)
  have h2 : c ≠ '\t' := by intro e; rw [e] at h; exact absurd h (by decide)
  have h3 : c ≠ '\n' := by intro e; rw [e] at h; exact absurd h (by decide)
  have h4 : c ≠ '\r' := by intro e; rw [e] at h; exact absurd h (by decide)
  simp [wsChar, h1, h2, h3, h4]

theorem mem_digitsOf (c : Char) (l : List Char) (h : c ∈ digitsOf l) :
    c.isDigit = true := by
  unfold digitsOf at h
  exact (List.mem_filter.mp h).2

/-- Normalizing a `+` followed by digits is the identity. -/
theorem normE164Chars_plus_digits (X : List Char)
    (hX : ∀ c ∈ X, c.isDigit = true) : normE164Chars ('+' :: X) = '+' :: X := by
  have hall : ∀ c ∈ '+' :: X, wsChar c = false := by
    intro c hc
    rcases List.mem_cons.mp hc with h | h
    · rw [h]; decide
    · exact not_ws_of_isDigit c (hX c h)
  unfold normE164Chars
  rw [if_neg (by simp)]
  simp only [jsTrim_eq_self_of_all _ hall]
  rw [if_pos (show ('+' :: X).head? = some '+' from rfl)]

/-- Normalizing a trimmed string that starts with `+` is the identity. -/
theorem normE164Chars_trimmed_plus (y : List Char) (hy : jsTrim y = y)
    (hh : y.head? = some '+') : normE164Chars y = y := by
  have hne : y ≠ [] := by
    intro h; rw [h] at hh; simp at hh
  unfold normE164Chars
  rw [if_neg hne]
  simp only [hy]
  rw [if_pos hh]

/-- Every output of `normE164Chars` is empty, a trimmed `+`-headed
passthrough, or `+` followed by digits only. -/
theorem normE164Chars_cases (raw : List Char) :
    normE164Chars raw = [] ∨
    (normE164Chars raw = jsTrim raw ∧ (jsTrim raw).head? = some '+') ∨
    (∃ X, normE164Chars raw = '+' :: X ∧ ∀ c ∈ X, c.isDigit = true) := by
  unfold normE164Chars
  by_cases hraw : raw = []
  · left; rw [if_pos hraw]
  · rw [if_neg hraw]
    by_cases hplus : (jsTrim raw).head? = some '+'
    · right; left
      rw [if_pos hplus]
      exact ⟨rfl, hplus⟩
    · rw [if_neg hplus]
      by_cases hd : digitsOf (jsTrim raw) = []
      · left; rw [if_pos hd]
      · rw [if_neg hd]
        right; right
        by_cases h8 : (digitsOf (jsTrim raw)).length = 11 ∧
            (digitsOf (jsTrim raw)).head? = some '8'
        · rw [if_pos h8]
          refine ⟨'7' :: (digitsOf (jsTrim raw)).tail, rfl, ?_⟩
          intro c hc
          rcases List.mem_cons.mp hc with h | h
          · rw [h]; decide
          · exact mem_digitsOf c _ (List.mem_of_mem_tail h)
        · rw [if_neg h8]
          by_cases h9 : (digitsOf (jsTrim raw)).length = 10 ∧
              (digitsOf (jsTrim raw)).head? = some '9'
          · rw [if_pos h9]
            refine ⟨'7' :: digitsOf (jsTrim raw), rfl, ?_⟩
            intro c hc
            rcases List.mem_cons.mp hc with h | h
            · rw [h]; decide
            · exact mem_digitsOf c _ h
          · rw [if_neg h9]
            by_cases h7 : (digitsOf (jsTrim raw)).length = 11 ∧
                (digitsOf (jsTrim raw)).head? = some '7'
            · rw [if_pos h7]
              exact ⟨digitsOf (jsTrim raw), rfl, fun c hc => mem_digitsOf c _ hc⟩
            · rw [if_neg h7]
              exact ⟨digitsOf (jsTrim raw), rfl, fun c hc => mem_digitsOf c _ hc⟩

theorem normE164Chars_idem (raw : List Char) :
    normE164Chars (normE164Chars raw) = normE164Chars raw := by
  rcases normE164Chars_cases raw with h | ⟨h, hh⟩ | ⟨X, h, hX⟩
  · rw [h]; rfl
  · rw [h]
    exact normE164Chars_trimmed_plus _ (jsTrim_idem raw) hh
  · rw [h]
    exact normE164Chars_plus_digits X hX

/-- C7: phone normalization is idempotent — proved for every string input,
which covers in particular the domestic 10/11-digit and already-international
forms named by the claim: `normalizePhoneToE164 (normalizePhoneToE164 x) =
normalizePhoneToE164 x`. -/
theorem claim_C7_normalize_idempotent (s : String) :
    normalizePhoneToE164 (normalizePhoneToE164 s) = normalizePhoneToE164 s := by
  unfold normalizePhoneToE164
  exact congrArg String.mk (normE164Chars_idem s.data)

/-- C8: an 11-digit domestic number with trunk digit `8` is rewritten to
international form: `normalizePhoneToE164 "8 999 123 45 67" = "+79991234567"`. -/
theorem claim_C8_trunk_rewrite :
    normalizePhoneToE164 "8 999 123 45 67" = "+79991234567" := by
  decide

/-! ### Store lemmas -/

theorem storeGet_storeDelete_self (s : RequestStore) (k : String) :
    storeGet (storeDelete s k) k = none := by
  induction s with
  | nil => rfl
  | cons e rest ih =>
      obtain ⟨k', v⟩ := e
      unfold storeDelete
      by_cases hk : k' = k
      · rw [if_pos hk]
        exact ih
      · rw [if_neg hk]
        unfold storeGet
        rw [if_neg hk]
        exact ih

theorem storeGet_storeSet_self (s : RequestStore) (k : String) (v : OtpSession) :
    storeGet (storeSet s k v) k = some v := by
  unfold storeSet storeGet
  rw [if_pos rfl]

/-! ### Verify-engine lemmas -/

/-- A verify call never succeeds and never changes the store when the
session id is absent from the live store. -/
theorem otpVerify_absent (env : VerifyEnv) (store : RequestStore)
    (id c : String) (h : storeGet store id = none) :
    isSuccess (otpVerify env store id c).1 = false ∧
      (otpVerify env store id c).2 = store := by
  unfold otpVerify
  by_cases h1 : id = "" ∨ c = ""
  · rw [if_pos h1]
    exact ⟨rfl, rfl⟩
  · rw [if_neg h1]
    simp only [h]
    exact ⟨rfl, trivial⟩

/-- A successful verify call deletes its session from the live store. -/
theorem otpVerify_success_delete (env : VerifyEnv) (store : RequestStore)
    (id c : String) :
    isSuccess (otpVerify env store id c).1 = true →
      (otpVerify env store id c).2 = storeDelete store id := by
  unfold otpVerify
  repeat' split
  all_goals intro h
  all_goals first
    | rfl
    | simp [isSuccess] at h

/-- The self-managed success path: live unexpired session, stored secret
equal to the supplied code. -/
theorem otpVerify_selfmanaged_success (env : VerifyEnv) (store : RequestStore)
    (id c : String) (meta : OtpSession)
    (hid : id ≠ "") (hc : c ≠ "")
    (hget : storeGet store id = some meta)
    (hprov : meta.provider ≠ "vonage")
    (hcode : meta.code = some c)
    (hexp : ¬ meta.expiresAt < env.now) :
    otpVerify env store id c =
      (VerifyResult.success meta.phone (meta.provider == "mock")
        (provisionOutcome env.idEnv).1 (provisionOutcome env.idEnv).2,
       storeDelete store id) := by
  have h1 : ¬(id = "" ∨ c = "") := by
    push_neg
    exact ⟨hid, hc⟩
  have h2 : ¬(meta.provider = "vonage" ∧ env.vonageConfigured = true) := by
    intro hv
    exact hprov hv.1
  have h3 : ¬(c = "" ∨ c ≠ c) := by
    push_neg
    exact ⟨hc, rfl⟩
  unfold otpVerify
  rw [if_neg h1]
  simp only [hget]
  rw [if_neg hexp, if_neg h2]
  simp only [hcode]
  rw [if_neg h3]

/-- No verify call on a store without the session id yields a success. -/
theorem verifySeq_zero (id : String) :
    ∀ (calls : List (VerifyEnv × String)) (s : RequestStore),
      storeGet s id = none → verifySeq id calls s = 0 := by
  intro calls
  induction calls with
  | nil => intro s _; rfl
  | cons ec rest ih =>
      intro s h
      obtain ⟨e, c⟩ := ec
      obtain ⟨hns, hst⟩ := otpVerify_absent e s id c h
      unfold verifySeq
      rw [hns, hst]
      simp [ih s h]

/-- Across any sequence of verify calls against one session id, at most one
call succeeds. -/
theorem verifySeq_le_one (id : String) :
    ∀ (calls : List (VerifyEnv × String)) (s : RequestStore),
      verifySeq id calls s ≤ 1 := by
  intro calls
  induction calls with
  | nil => intro s; exact Nat.zero_le 1
  | cons ec rest ih =>
      intro s
      obtain ⟨e, c⟩ := ec
      unfold verifySeq
      by_cases hs : isSuccess (otpVerify e s id c).1 = true
      · rw [if_pos hs, otpVerify_success_delete e s id c hs,
          verifySeq_zero id rest (storeDelete s id) (storeGet_storeDelete_self s id)]
      · rw [if_neg hs]
        simpa using ih (otpVerify e s id c).2

/-! ### Claims about the verification engine -/

/-- C1: a self-managed session accepts the correct code exactly once: the
first correct-code verification before expiry succeeds and deletes the
session from the live store; an immediately repeated verification with the
same id and code fails with "not found"; and no sequence of verify calls on
one session id counts more than one success. -/
theorem claim_C1_single_use (env env' : VerifyEnv) (store : RequestStore)
    (id c : String) (meta : OtpSession)
    (hid : id ≠ "") (hc : c ≠ "")
    (hget : storeGet store id = some meta)
    (hprov : meta.provider ≠ "vonage")
    (hcode : meta.code = some c)
    (hexp : ¬ meta.expiresAt < env.now) :
    otpVerify env store id c =
      (VerifyResult.success meta.phone (meta.provider == "mock")
        (provisionOutcome env.idEnv).1 (provisionOutcome env.idEnv).2,
       storeDelete store id) ∧
    (otpVerify env' (storeDelete store id) id c).1 = VerifyResult.notFound ∧
    (∀ calls s, verifySeq id calls s ≤ 1) := by
  refine ⟨otpVerify_selfmanaged_success env store id c meta hid hc hget hprov hcode hexp,
    ?_, fun calls s => verifySeq_le_one id calls s⟩
  have h1 : ¬(id = "" ∨ c = "") := by
    push_neg
    exact ⟨hid, hc⟩
  unfold otpVerify
  rw [if_neg h1]
  simp only [storeGet_storeDelete_self store id]

/-- C1 witness: the single-use property at a concrete mock session. -/
theorem claim_C1_single_use_witness :
    otpVerify sampleVerifyEnv [("id1", sampleSession)] "id1" "123456" =
      (VerifyResult.success sampleSession.phone (sampleSession.provider == "mock")
        (provisionOutcome sampleVerifyEnv.idEnv).1
        (provisionOutcome sampleVerifyEnv.idEnv).2,
       storeDelete [("id1", sampleSession)] "id1") ∧
    (otpVerify sampleVerifyEnv (storeDelete [("id1", sampleSession)] "id1")
      "id1" "123456").1 = VerifyResult.notFound ∧
    (∀ calls s, verifySeq "id1" calls s ≤ 1) :=
  claim_C1_single_use sampleVerifyEnv sampleVerifyEnv [("id1", sampleSession)]
    "id1" "123456" sampleSession (by decide) (by decide) (by decide)
    (by decide) (by decide) (by decide)

/-- C2 counterexample: the code checks `meta.expiresAt < Date.now()`
(src/index.js:2528), so a verify call at exactly the `expiresAt` instant is
not treated as expired and the correct code still succeeds — the claim's
"at or after expiry never succeeds" fails at the boundary instant. -/
theorem claim_C2_counterexample :
    (otpVerify boundaryVerifyEnv [("id1", sampleSession)] "id1" "123456").1 =
      VerifyResult.success "+79991234567" true none false := by
  decide

/-- C2 (amended): a verify call made strictly after the session's
`expiresAt` instant never succeeds: the session is deleted and the call
fails with "code expired"; the session is valid up to and including
`expiresAt`, not strictly before it. -/
theorem claim_C2_expiry (env : VerifyEnv) (store : RequestStore)
    (id code : String) (meta : OtpSession)
    (hid : id ≠ "") (hc : code ≠ "")
    (hget : storeGet store id = some meta)
    (hexp : meta.expiresAt < env.now) :
    otpVerify env store id code = (VerifyResult.expired, storeDelete store id) := by
  have h1 : ¬(id = "" ∨ code = "") := by
    push_neg
    exact ⟨hid, hc⟩
  unfold otpVerify
  rw [if_neg h1]
  simp only [hget]
  rw [if_pos hexp]

/-- C2 witness: a verify at t = 2000 on a session expiring at t = 1000. -/
theorem claim_C2_expiry_witness :
    otpVerify lateVerifyEnv [("id1", sampleSession)] "id1" "123456" =
      (VerifyResult.expired, storeDelete [("id1", sampleSession)] "id1") :=
  claim_C2_expiry lateVerifyEnv [("id1", sampleSession)] "id1" "123456"
    sampleSession (by decide) (by decide) (by decide) (by decide)

/-- C3: on a live, unexpired self-managed session, a wrong or missing code
fails with "invalid code" and leaves the store unchanged, so a later verify
with the correct code before expiry still succeeds on the same store. -/
theorem claim_C3_invalid_code_retry (env : VerifyEnv) (store : RequestStore)
    (id code : String) (meta : OtpSession)
    (hid : id ≠ "") (hc : code ≠ "")
    (hget : storeGet store id = some meta)
    (hprov : meta.provider ≠ "vonage")
    (hexp : ¬ meta.expiresAt < env.now)
    (hbad : ∀ c, meta.code = some c → c ≠ code) :
    otpVerify env store id code = (VerifyResult.invalidCode, store) ∧
    (∀ (env' : VerifyEnv) (c' : String), meta.code = some c' → c' ≠ "" →
      ¬ meta.expiresAt < env'.now →
      (otpVerify env' store id c').1 =
        VerifyResult.success meta.phone (meta.provider == "mock")
          (provisionOutcome env'.idEnv).1 (provisionOutcome env'.idEnv).2) := by
  have h1 : ¬(id = "" ∨ code = "") := by
    push_neg
    exact ⟨hid, hc⟩
  have h2 : ¬(meta.provider = "vonage" ∧ env.vonageConfigured = true) := by
    intro hv
    exact hprov hv.1
  constructor
  · unfold otpVerify
    rw [if_neg h1]
    simp only [hget]
    rw [if_neg hexp, if_neg h2]
    cases hmc : meta.code with
    | none => rfl
    | some c =>
        simp only []
        rw [if_pos (Or.inr (hbad c hmc))]
  · intro env' c' hc' hcne hexp'
    rw [otpVerify_selfmanaged_success env' store id c' meta hid hcne hget hprov hc' hexp']

/-- C3 witness: wrong code `999999` on the sample session, then the correct
code `123456` succeeding on the untouched store. -/
theorem claim_C3_invalid_code_retry_witness :
    otpVerify sampleVerifyEnv [("id1", sampleSession)] "id1" "999999" =
      (VerifyResult.invalidCode, [("id1", sampleSession)]) ∧
    (∀ (env' : VerifyEnv) (c' : String), sampleSession.code = some c' → c' ≠ "" →
      ¬ sampleSession.expiresAt < env'.now →
      (otpVerify env' [("id1", sampleSession)] "id1" c').1 =
        VerifyResult.success sampleSession.phone (sampleSession.provider == "mock")
          (provisionOutcome env'.idEnv).1 (provisionOutcome env'.idEnv).2) :=
  claim_C3_invalid_code_retry sampleVerifyEnv [("id1", sampleSession)]
    "id1" "999999" sampleSession (by decide) (by decide) (by decide)
    (by decide) (by decide) (by decide)

/-- C4: when identity provisioning throws after a successful code check, the
verify response is still `success: true` with the session's phone and a null
`supabaseUserId` — on the self-managed path and on the Vonage path alike. -/
theorem claim_C4_provisioning_failure (env : VerifyEnv) (store : RequestStore)
    (id c : String) (meta : OtpSession) (e : CreateUserError)
    (hid : id ≠ "") (hc : c ≠ "")
    (hget : storeGet store id = some meta)
    (hexp : ¬ meta.expiresAt < env.now)
    (hfail : ensureSupabaseUser env.idEnv = Except.error e) :
    (meta.provider ≠ "vonage" → meta.code = some c →
      otpVerify env store id c =
        (VerifyResult.success meta.phone (meta.provider == "mock") none false,
         storeDelete store id)) ∧
    (∀ et, meta.provider = "vonage" → env.vonageConfigured = true →
      env.vonageCheck = Except.ok ⟨"0", et⟩ →
      otpVerify env store id c =
        (VerifyResult.success meta.phone false none false,
         storeDelete store id)) := by
  have hpo : provisionOutcome env.idEnv = (none, false) := by
    unfold provisionOutcome
    rw [hfail]
  have hpo1 : (provisionOutcome env.idEnv).1 = none := by rw [hpo]
  have hpo2 : (provisionOutcome env.idEnv).2 = false := by rw [hpo]
  have h1 : ¬(id = "" ∨ c = "") := by
    push_neg
    exact ⟨hid, hc⟩
  constructor
  · intro hprov hcode
    rw [otpVerify_selfmanaged_success env store id c meta hid hc hget hprov hcode hexp,
      hpo1, hpo2]
  · intro et hprov hvc hck
    unfold otpVerify
    rw [if_neg h1]
    simp only [hget]
    rw [if_neg hexp, if_pos ⟨hprov, hvc⟩]
    simp only [hck]
    rw [if_neg (show ¬(VonageCheck.status ⟨"0", et⟩ ≠ "0") from fun h => h rfl),
      hpo1, hpo2]

/-- C4 witness: provisioning fails against `failingIdEnv`, the verify still
answers `success: true` with a null user id. -/
theorem claim_C4_provisioning_failure_witness :
    ensureSupabaseUser provisionFailEnv.idEnv = Except.error ⟨none, "network down"⟩ ∧
    (sampleSession.provider ≠ "vonage" → sampleSession.code = some "123456" →
      otpVerify provisionFailEnv [("id1", sampleSession)] "id1" "123456" =
        (VerifyResult.success sampleSession.phone (sampleSession.provider == "mock")
          none false,
         storeDelete [("id1", sampleSession)] "id1")) ∧
    (∀ et, sampleSession.provider = "vonage" →
      provisionFailEnv.vonageConfigured = true →
      provisionFailEnv.vonageCheck = Except.ok ⟨"0", et⟩ →
      otpVerify provisionFailEnv [("id1", sampleSession)] "id1" "123456" =
        (VerifyResult.success sampleSession.phone false none false,
         storeDelete [("id1", sampleSession)] "id1")) :=
  ⟨rfl,
    claim_C4_provisioning_failure provisionFailEnv [("id1", sampleSession)]
      "id1" "123456" sampleSession ⟨none, "network down"⟩ (by decide) (by decide)
      (by decide) (by decide) rfl⟩

/-! ### Claims about identity provisioning -/

/-- C5: when user creation fails specifically because the phone already
exists (the `phone_exists` code or the "already registered" message),
`ensureSupabaseUser` re-searches and returns the now-existing user with
`created = false`; any other creation failure propagates to the caller. -/
theorem claim_C5_provisioning_race (env : IdentityEnv) (e : CreateUserError)
    (u : SbUser)
    (hcfg : env.configured = true)
    (hs1 : env.searchBefore = none)
    (hcr : env.createResult = Except.error e) :
    (isPhoneExistsError e = true → env.searchAfter = some u →
      ensureSupabaseUser env = Except.ok (some ⟨some u.id, false⟩)) ∧
    (isPhoneExistsError e = false → ensureSupabaseUser env = Except.error e) := by
  constructor
  · intro hpe hs2
    unfold ensureSupabaseUser
    rw [if_neg (by simp [hcfg])]
    simp only [hs1, hcr, hs2]
    rw [if_pos hpe]
  · intro hpe
    unfold ensureSupabaseUser
    rw [if_neg (by simp [hcfg])]
    simp only [hs1, hcr]
    rw [if_neg (by simp [hpe])]

/-- C5 witness: a lost race (`phone_exists`) whose re-search finds the
concurrently created user. -/
theorem claim_C5_provisioning_race_witness :
    isPhoneExistsError raceError = true ∧
    (isPhoneExistsError raceError = true → raceEnv.searchAfter = some raceUser →
      ensureSupabaseUser raceEnv = Except.ok (some ⟨some raceUser.id, false⟩)) ∧
    (isPhoneExistsError raceError = false →
      ensureSupabaseUser raceEnv = Except.error raceError) :=
  ⟨by decide,
    (claim_C5_provisioning_race raceEnv raceError raceUser rfl rfl rfl).1,
    (claim_C5_provisioning_race raceEnv raceError raceUser rfl rfl rfl).2⟩

/-! ### Claims about issuance -/

/-- A renderer exception always degrades the QR image to `null`. -/
theorem generateQrDataUrl_error (payload : String) (u : Unit) :
    generateQrDataUrl payload (Except.error u) = none := by
  unfold generateQrDataUrl
  split <;> rfl

/-- C6: a QR-rendering failure is non-fatal to issuance: the request still
returns its normal success response (session id, `expiresIn`, mock fields,
report flag, QR payload) with no QR image — on the mock, SMS.RU and Vonage
paths alike. -/
theorem claim_C6_qr_failure_nonfatal (env : RequestEnv) (store : RequestStore)
    (phone : String) (report : Option String)
    (hp : phone ≠ "") (hn : normalizePhoneToE164 phone ≠ "")
    (hq : env.qrRender = Except.error ()) :
    (¬(env.activeProvider = "vonage" ∧ env.vonageConfigured = true) →
      env.activeProvider ≠ "smsru" →
      (otpRequest env store phone report).1 =
        RequestResult.okLocal env.newRequestId (env.ttlMs / 1000)
          (env.activeProvider == "mock")
          (if env.activeProvider = "mock" then some env.newCode else none)
          report.isSome
          (buildQrPayload env.newRequestId (normalizePhoneToE164 phone)
            env.activeProvider brandName)
          none) ∧
    (¬(env.activeProvider = "vonage" ∧ env.vonageConfigured = true) →
      env.activeProvider = "smsru" → env.smsSend = Except.ok () →
      (otpRequest env store phone report).1 =
        RequestResult.okLocal env.newRequestId (env.ttlMs / 1000) false none
          report.isSome
          (buildQrPayload env.newRequestId (normalizePhoneToE164 phone)
            env.activeProvider brandName)
          none) ∧
    (∀ resp : VonageStart,
      env.activeProvider = "vonage" ∧ env.vonageConfigured = true →
      env.vonageStart = Except.ok resp → resp.status = "0" →
      (otpRequest env store phone report).1 =
        RequestResult.okVonage resp.requestId (env.ttlMs / 1000) report.isSome
          (buildQrPayload resp.requestId (normalizePhoneToE164 phone)
            "vonage" brandName)
          none) := by
  refine ⟨?_, ?_, ?_⟩
  · intro hnv hns
    simp only [otpRequest]
    rw [if_neg hp, if_neg hn, if_neg hnv, if_neg hns, hq,
      generateQrDataUrl_error]
  · intro hnv hsms hsend
    simp only [otpRequest]
    rw [if_neg hp, if_neg hn, if_neg hnv, if_pos hsms]
    simp only [hsend]
    rw [hq, generateQrDataUrl_error]
  · intro resp hv hstart hstatus
    simp only [otpRequest]
    rw [if_neg hp, if_neg hn, if_pos hv]
    simp only [hstart]
    rw [if_neg (show ¬(resp.status ≠ "0") from fun h => h hstatus), hq,
      generateQrDataUrl_error]

/-- C6 witness: a mock issuance whose QR renderer throws still answers with
the full success payload and no QR image. -/
theorem claim_C6_qr_failure_nonfatal_witness :
    mockRequestEnv.qrRender = Except.error () ∧
    (otpRequest mockRequestEnv [] "89991234567" none).1 =
      RequestResult.okLocal mockRequestEnv.newRequestId
        (mockRequestEnv.ttlMs / 1000)
        (mockRequestEnv.activeProvider == "mock")
        (if mockRequestEnv.activeProvider = "mock" then
          some mockRequestEnv.newCode else none)
        (none : Option String).isSome
        (buildQrPayload mockRequestEnv.newRequestId
          (normalizePhoneToE164 "89991234567")
          mockRequestEnv.activeProvider brandName)
        none :=
  ⟨rfl,
    (claim_C6_qr_failure_nonfatal mockRequestEnv [] "89991234567" none
      (by decide) (by decide) rfl).1 (by decide) (by decide)⟩

/-- C10 (implicit): in the SMS.RU configuration the session is inserted into
the live store before the outbound send, so when `sendSmsRuCode` throws the
caller gets the 400 error response but the session, secret included, stays
in the live store and the correct code still verifies before the TTL
elapses. -/
theorem claim_C10_send_failure_session_live (env : RequestEnv)
    (store : RequestStore) (phone : String) (report : Option String)
    (venv : VerifyEnv) (msg : String)
    (hp : phone ≠ "") (hn : normalizePhoneToE164 phone ≠ "")
    (hprov : env.activeProvider = "smsru")
    (hsend : env.smsSend = Except.error msg)
    (hid : env.newRequestId ≠ "") (hcode : env.newCode ≠ "")
    (hvt : ¬ (env.now + env.ttlMs) < venv.now) :
    (otpRequest env store phone report).1 = RequestResult.requestError msg ∧
    storeGet (otpRequest env store phone report).2 env.newRequestId =
      some (localSession env phone) ∧
    (otpVerify venv (otpRequest env store phone report).2 env.newRequestId
      env.newCode).1 =
      VerifyResult.success (normalizePhoneToE164 phone) false
        (provisionOutcome venv.idEnv).1 (provisionOutcome venv.idEnv).2 := by
  have hnv : ¬(env.activeProvider = "vonage" ∧ env.vonageConfigured = true) := by
    intro hv
    rw [hprov] at hv
    exact absurd hv.1 (by decide)
  have hreq : otpRequest env store phone report =
      (RequestResult.requestError msg,
       storeSet store env.newRequestId (localSession env phone)) := by
    simp only [otpRequest]
    rw [if_neg hp, if_neg hn, if_neg hnv, if_pos hprov]
    simp only [hsend]
    rfl
  have hgot := storeGet_storeSet_self store env.newRequestId
    (localSession env phone)
  have hpne : (localSession env phone).provider ≠ "vonage" := by
    show env.activeProvider ≠ "vonage"
    rw [hprov]
    decide
  have hpexp : ¬ (localSession env phone).expiresAt < venv.now := hvt
  have hsucc := otpVerify_selfmanaged_success venv
    (storeSet store env.newRequestId (localSession env phone))
    env.newRequestId env.newCode (localSession env phone)
    hid hcode hgot hpne rfl hpexp
  refine ⟨by rw [hreq], by rw [hreq]; exact hgot, ?_⟩
  rw [hreq]
  rw [hsucc]
  show VerifyResult.success (normalizePhoneToE164 phone)
      (env.activeProvider == "mock") _ _ =
    VerifyResult.success (normalizePhoneToE164 phone) false _ _
  rw [hprov]
  rfl

/-- C10 witness: an SMS.RU issuance whose send throws leaves the session
live, and the code verifies at t = 500. -/
theorem claim_C10_send_failure_session_live_witness :
    smsruFailEnv.smsSend = Except.error "SMS.RU запрос завершился с ошибкой" ∧
    ((otpRequest smsruFailEnv [] "89991234567" none).1 =
      RequestResult.requestError "SMS.RU запрос завершился с ошибкой" ∧
    storeGet (otpRequest smsruFailEnv [] "89991234567" none).2
      smsruFailEnv.newRequestId =
      some (localSession smsruFailEnv "89991234567") ∧
    (otpVerify sampleVerifyEnv (otpRequest smsruFailEnv [] "89991234567" none).2
      smsruFailEnv.newRequestId smsruFailEnv.newCode).1 =
      VerifyResult.success (normalizePhoneToE164 "89991234567") false
        (provisionOutcome sampleVerifyEnv.idEnv).1
        (provisionOutcome sampleVerifyEnv.idEnv).2) :=
  ⟨rfl,
    claim_C10_send_failure_session_live smsruFailEnv [] "89991234567" none
      sampleVerifyEnv "SMS.RU запрос завершился с ошибкой" (by decide)
      (by decide) (by decide) rfl (by decide) (by decide) (by decide)⟩

/-! ### Claims about the recent-requests listing -/

/-- C9: the recent-requests query is ordered newest first (descending
`created_at`) and returns at most 200 rows, defaulting to the newest 50 when
the limit is absent or non-numeric; without a configured durable store the
load is a hard failure and the endpoint answers with a 500. -/
theorem claim_C9_list_recent (table : List AuditRow) (limit : Option Int) :
    getOtpRequests false table limit =
      ListResult.serverError "Failed to load OTP requests" ∧
    loadRecentOtpRequests false table limit =
      Except.error "Supabase is not configured" ∧
    (∀ rows, loadRecentOtpRequests true table limit = Except.ok rows →
      rows.length ≤ 200 ∧ List.Sorted newestFirst rows ∧
      (limit = none →
        rows = (List.insertionSort newestFirst table).take 50)) := by
  refine ⟨rfl, rfl, ?_⟩
  intro rows h
  have hrows : rows = (List.insertionSort newestFirst table).take
      (sanitizeLimit limit).toNat := by
    unfold loadRecentOtpRequests at h
    rw [if_neg (by simp)] at h
    exact (Except.ok.inj h).symm
  have hsan : sanitizeLimit limit ≤ 200 :=
    max_le (by norm_num) (min_le_right _ _)
  refine ⟨?_, ?_, ?_⟩
  · rw [hrows]
    calc ((List.insertionSort newestFirst table).take
          (sanitizeLimit limit).toNat).length
        ≤ (sanitizeLimit limit).toNat := by
          rw [List.length_take]
          exact min_le_left _ _
      _ ≤ 200 := Int.toNat_le.mpr hsan
  · rw [hrows]
    exact List.Pairwise.sublist (List.take_sublist _ _)
      (List.sorted_insertionSort newestFirst table)
  · intro hnone
    rw [hrows, hnone]
    rfl

/-- C9 witness: the configured listing on a concrete two-row table with no
limit parameter, and the 500 of the unconfigured endpoint. -/
theorem claim_C9_list_recent_witness :
    loadRecentOtpRequests true sampleTable none = Except.ok sampleRows ∧
    (sampleRows.length ≤ 200 ∧ List.Sorted newestFirst sampleRows ∧
      ((none : Option Int) = none →
        sampleRows = (List.insertionSort newestFirst sampleTable).take 50)) ∧
    getOtpRequests false sampleTable none =
      ListResult.serverError "Failed to load OTP requests" :=
  ⟨rfl,
    (claim_C9_list_recent sampleTable none).2.2 sampleRows rfl,
    (claim_C9_list_recent sampleTable none).1⟩

end OtpValhalla
